import Mathlib

/-!
Verification of the Gobbly Turkey game core: a shallow embedding of the
collision geometry (`client/src/lib/collision.ts`), the sprite constructors
(`client/src/lib/sprites.ts`), the difficulty table
(`client/src/constants/difficulty.ts`), the game-engine update/score/reset
logic (`client/src/lib/gameEngine.ts`), and the frame-loop error circuit
breaker of the engine variant with error handling.

Coordinates and sizes are JavaScript numbers in the source; they are embedded
as rationals.  Timestamps (`Date.now()` milliseconds) are embedded as
integers.  Scores and levels are naturals.
-/

namespace GobblyTurkey

/-- Rectangle record mirroring the `Rectangle` interface of `collision.ts`. -/
structure Rect where
  x : ℚ
  y : ℚ
  width : ℚ
  height : ℚ
deriving DecidableEq

/-- Embedding of `rectsIntersect` from `collision.ts`: strict AABB overlap on
both axes (`rect1.x < rect2.x + rect2.width && rect1.x + rect1.width > rect2.x
&& rect1.y < rect2.y + rect2.height && rect1.y + rect1.height > rect2.y`). -/
def rectsIntersect (rect1 rect2 : Rect) : Bool :=
  decide (rect1.x < rect2.x + rect2.width) &&
  decide (rect1.x + rect1.width > rect2.x) &&
  decide (rect1.y < rect2.y + rect2.height) &&
  decide (rect1.y + rect1.height > rect2.y)

/-- Embedding of `createRect` from `collision.ts` (field-wise copy). -/
def createRect (obj : Rect) : Rect :=
  { x := obj.x, y := obj.y, width := obj.width, height := obj.height }

/-- Signed overlap length of the intervals `[lo1, hi1]` and `[lo2, hi2]`. -/
def intervalOverlap (lo1 hi1 lo2 hi2 : ℚ) : ℚ :=
  min hi1 hi2 - max lo1 lo2

/-- Signed horizontal overlap of two rectangles. -/
def xOverlap (a b : Rect) : ℚ :=
  intervalOverlap a.x (a.x + a.width) b.x (b.x + b.width)

/-- Signed vertical overlap of two rectangles. -/
def yOverlap (a b : Rect) : ℚ :=
  intervalOverlap a.y (a.y + a.height) b.y (b.y + b.height)

/-- Overlap area of two rectangles (zero when they do not overlap). -/
def overlapArea (a b : Rect) : ℚ :=
  max 0 (xOverlap a b) * max 0 (yOverlap a b)

lemma rectsIntersect_iff (r1 r2 : Rect) :
    rectsIntersect r1 r2 = true ↔
      (r1.x < r2.x + r2.width ∧ r2.x < r1.x + r1.width ∧
       r1.y < r2.y + r2.height ∧ r2.y < r1.y + r1.height) := by
  simp [rectsIntersect, and_assoc, gt_iff_lt]

lemma xOverlap_pos_iff (a b : Rect) (haw : 0 < a.width) (hbw : 0 < b.width) :
    0 < xOverlap a b ↔ (a.x < b.x + b.width ∧ b.x < a.x + a.width) := by
  unfold xOverlap intervalOverlap
  rw [sub_pos, max_lt_iff, lt_min_iff, lt_min_iff]
  constructor
  · rintro ⟨⟨_, h1⟩, ⟨h2, _⟩⟩
    exact ⟨h1, h2⟩
  · rintro ⟨h1, h2⟩
    exact ⟨⟨by linarith, h1⟩, ⟨h2, by linarith⟩⟩

lemma yOverlap_pos_iff (a b : Rect) (hah : 0 < a.height) (hbh : 0 < b.height) :
    0 < yOverlap a b ↔ (a.y < b.y + b.height ∧ b.y < a.y + a.height) := by
  unfold yOverlap intervalOverlap
  rw [sub_pos, max_lt_iff, lt_min_iff, lt_min_iff]
  constructor
  · rintro ⟨⟨_, h1⟩, ⟨h2, _⟩⟩
    exact ⟨h1, h2⟩
  · rintro ⟨h1, h2⟩
    exact ⟨⟨by linarith, h1⟩, ⟨h2, by linarith⟩⟩

/-- C1: for genuine rectangles (positive width and height), `rectsIntersect`
returns true exactly when the open intervals overlap on both axes: it is
false whenever the overlap area is zero, true whenever the overlap area is
positive, and false for rectangles that exactly share a boundary edge. -/
theorem rectsIntersect_strict_open_overlap (a b : Rect)
    (haw : 0 < a.width) (hah : 0 < a.height)
    (hbw : 0 < b.width) (hbh : 0 < b.height) :
    (rectsIntersect a b = true ↔ 0 < xOverlap a b ∧ 0 < yOverlap a b) ∧
    (overlapArea a b = 0 → rectsIntersect a b = false) ∧
    (0 < overlapArea a b → rectsIntersect a b = true) ∧
    ((a.x + a.width = b.x ∨ b.x + b.width = a.x ∨
      a.y + a.height = b.y ∨ b.y + b.height = a.y) →
      rectsIntersect a b = false) := by
  have hmain : rectsIntersect a b = true ↔ 0 < xOverlap a b ∧ 0 < yOverlap a b := by
    rw [rectsIntersect_iff, xOverlap_pos_iff a b haw hbw, yOverlap_pos_iff a b hah hbh]
    tauto
  refine ⟨hmain, ?_, ?_, ?_⟩
  · intro harea
    rw [Bool.eq_false_iff]
    intro htrue
    obtain ⟨hx, hy⟩ := hmain.mp htrue
    have hx' : max 0 (xOverlap a b) = xOverlap a b := max_eq_right hx.le
    have hy' : max 0 (yOverlap a b) = yOverlap a b := max_eq_right hy.le
    have : 0 < overlapArea a b := by
      unfold overlapArea
      rw [hx', hy']
      exact mul_pos hx hy
    exact absurd harea (by linarith)
  · intro harea
    rw [hmain]
    unfold overlapArea at harea
    by_contra hcon
    push_neg at hcon
    rcases le_or_lt (xOverlap a b) 0 with hx | hx
    · have : max 0 (xOverlap a b) = 0 := max_eq_left hx
      rw [this, zero_mul] at harea
      exact lt_irrefl 0 harea
    · have hy := hcon hx
      have : max 0 (yOverlap a b) = 0 := max_eq_left hy
      rw [this, mul_zero] at harea
      exact lt_irrefl 0 harea
  · intro hedge
    rw [Bool.eq_false_iff]
    intro htrue
    obtain ⟨hx, hy⟩ := hmain.mp htrue
    have hxmin : min (a.x + a.width) (b.x + b.width) ≤ a.x + a.width := min_le_left _ _
    have hxmin' : min (a.x + a.width) (b.x + b.width) ≤ b.x + b.width := min_le_right _ _
    have hxmax : a.x ≤ max a.x b.x := le_max_left _ _
    have hxmax' : b.x ≤ max a.x b.x := le_max_right _ _
    have hymin : min (a.y + a.height) (b.y + b.height) ≤ a.y + a.height := min_le_left _ _
    have hymin' : min (a.y + a.height) (b.y + b.height) ≤ b.y + b.height := min_le_right _ _
    have hymax : a.y ≤ max a.y b.y := le_max_left _ _
    have hymax' : b.y ≤ max a.y b.y := le_max_right _ _
    unfold xOverlap intervalOverlap at hx
    unfold yOverlap intervalOverlap at hy
    rcases hedge with h | h | h | h <;> linarith

/-- Witness for C1 at rectangles sharing a right/left boundary edge. -/
theorem rectsIntersect_strict_open_overlap_witness :
    rectsIntersect ⟨0, 0, 10, 10⟩ ⟨10, 0, 10, 10⟩ = false :=
  (rectsIntersect_strict_open_overlap ⟨0, 0, 10, 10⟩ ⟨10, 0, 10, 10⟩
    (by norm_num) (by norm_num) (by norm_num) (by norm_num)).2.2.2
    (Or.inl (by norm_num))

/-- Obstacle record mirroring the `Obstacle` sprite of `sprites.ts` (the
fields the engine and the collision module read). -/
structure Obstacle where
  x : ℚ
  width : ℚ
  topHeight : ℚ
  bottomHeight : ℚ
  scored : Bool
deriving DecidableEq

/-- Embedding of the `Obstacle` constructor from `sprites.ts`:
`width = 60`, `topHeight = gapStart`,
`bottomHeight = canvasHeight - (gapStart + gapSize)`, `scored = false`
(the `topY` argument is unused in the source). -/
def mkObstacle (x _topY gapStart gapSize canvasHeight : ℚ) : Obstacle :=
  { x := x
    width := 60
    topHeight := gapStart
    bottomHeight := canvasHeight - (gapStart + gapSize)
    scored := false }

/-- Embedding of `checkTurkeyObstacleCollision` from `collision.ts`:
test the turkey rectangle against the top trunk (y = 0, height = topHeight)
when `topHeight > 0`, and against the bottom trunk
(y = canvasHeight - bottomHeight, height = bottomHeight) when
`bottomHeight > 0`; collision when either intersects. -/
def checkTurkeyObstacleCollision (turkey : Rect) (obstacle : Obstacle)
    (canvasHeight : ℚ) : Bool :=
  let turkeyRect := createRect turkey
  (if 0 < obstacle.topHeight then
    rectsIntersect turkeyRect
      { x := obstacle.x, y := 0, width := obstacle.width, height := obstacle.topHeight }
  else false) ||
  (if 0 < obstacle.bottomHeight then
    rectsIntersect turkeyRect
      { x := obstacle.x, y := canvasHeight - obstacle.bottomHeight,
        width := obstacle.width, height := obstacle.bottomHeight }
  else false)

/-- Embedding of `checkSimpleCollision` from `collision.ts`. -/
def checkSimpleCollision (obj1 obj2 : Rect) : Bool :=
  rectsIntersect (createRect obj1) (createRect obj2)

@[simp] lemma createRect_eq (obj : Rect) : createRect obj = obj := rfl

lemma checkTurkeyObstacleCollision_eq_true_iff (turkey : Rect) (ob : Obstacle)
    (canvasHeight : ℚ) :
    checkTurkeyObstacleCollision turkey ob canvasHeight = true ↔
      ((0 < ob.topHeight ∧
        rectsIntersect turkey
          { x := ob.x, y := 0, width := ob.width, height := ob.topHeight } = true) ∨
       (0 < ob.bottomHeight ∧
        rectsIntersect turkey
          { x := ob.x, y := canvasHeight - ob.bottomHeight,
            width := ob.width, height := ob.bottomHeight } = true)) := by
  unfold checkTurkeyObstacleCollision
  by_cases h1 : 0 < ob.topHeight <;> by_cases h2 : 0 < ob.bottomHeight <;>
    simp [h1, h2]

/-- C2: for an obstacle whose top, gap and bottom heights tile the playfield,
a horizontally overlapping character strictly inside the gap does not
collide; any positive vertical overlap into the top or bottom barrier (with
horizontal overlap) collides; and a barrier sub-rectangle of zero or
negative height is skipped entirely and never contributes a collision. -/
theorem characterHitsObstacle_gap_property
    (turkey : Rect) (ob : Obstacle) (playfieldHeight gapSize : ℚ)
    (hsum : ob.topHeight + gapSize + ob.bottomHeight = playfieldHeight) :
    (turkey.x < ob.x + ob.width → ob.x < turkey.x + turkey.width →
      ob.topHeight < turkey.y →
      turkey.y + turkey.height < playfieldHeight - ob.bottomHeight →
      checkTurkeyObstacleCollision turkey ob playfieldHeight = false) ∧
    (turkey.x < ob.x + ob.width → ob.x < turkey.x + turkey.width →
      0 < min (turkey.y + turkey.height) ob.topHeight - max turkey.y 0 →
      checkTurkeyObstacleCollision turkey ob playfieldHeight = true) ∧
    (turkey.x < ob.x + ob.width → ob.x < turkey.x + turkey.width →
      0 < min (turkey.y + turkey.height) playfieldHeight -
          max turkey.y (playfieldHeight - ob.bottomHeight) →
      checkTurkeyObstacleCollision turkey ob playfieldHeight = true) ∧
    (ob.topHeight ≤ 0 →
      checkTurkeyObstacleCollision turkey ob playfieldHeight =
        if 0 < ob.bottomHeight then
          rectsIntersect turkey
            { x := ob.x, y := playfieldHeight - ob.bottomHeight,
              width := ob.width, height := ob.bottomHeight }
        else false) ∧
    (ob.bottomHeight ≤ 0 →
      checkTurkeyObstacleCollision turkey ob playfieldHeight =
        if 0 < ob.topHeight then
          rectsIntersect turkey
            { x := ob.x, y := 0, width := ob.width, height := ob.topHeight }
        else false) := by
  refine ⟨?_, ?_, ?_, ?_, ?_⟩
  · intro _ _ hy1 hy2
    rw [Bool.eq_false_iff]
    intro htrue
    rcases (checkTurkeyObstacleCollision_eq_true_iff turkey ob playfieldHeight).mp htrue with
      ⟨_, hint⟩ | ⟨_, hint⟩
    · obtain ⟨_, _, hy, _⟩ := (rectsIntersect_iff _ _).mp hint
      simp only at hy
      linarith
    · obtain ⟨_, _, _, hy⟩ := (rectsIntersect_iff _ _).mp hint
      simp only at hy
      linarith
  · intro hx1 hx2 hov
    have h1 : min (turkey.y + turkey.height) ob.topHeight ≤ ob.topHeight :=
      min_le_right _ _
    have h2 : min (turkey.y + turkey.height) ob.topHeight ≤ turkey.y + turkey.height :=
      min_le_left _ _
    have h3 : turkey.y ≤ max turkey.y (0 : ℚ) := le_max_left _ _
    have h4 : (0 : ℚ) ≤ max turkey.y 0 := le_max_right _ _
    rw [checkTurkeyObstacleCollision_eq_true_iff]
    left
    refine ⟨by linarith, (rectsIntersect_iff _ _).mpr ?_⟩
    refine ⟨hx1, hx2, ?_, ?_⟩ <;> simp only [] <;> linarith
  · intro hx1 hx2 hov
    have h1 : min (turkey.y + turkey.height) playfieldHeight ≤ playfieldHeight :=
      min_le_right _ _
    have h2 : min (turkey.y + turkey.height) playfieldHeight ≤ turkey.y + turkey.height :=
      min_le_left _ _
    have h3 : turkey.y ≤ max turkey.y (playfieldHeight - ob.bottomHeight) := le_max_left _ _
    have h4 : playfieldHeight - ob.bottomHeight ≤
        max turkey.y (playfieldHeight - ob.bottomHeight) := le_max_right _ _
    rw [checkTurkeyObstacleCollision_eq_true_iff]
    right
    refine ⟨by linarith, (rectsIntersect_iff _ _).mpr ?_⟩
    refine ⟨hx1, hx2, ?_, ?_⟩ <;> simp only [] <;> linarith
  · intro htop
    unfold checkTurkeyObstacleCollision
    simp [not_lt.mpr htop]
  · intro hbot
    unfold checkTurkeyObstacleCollision
    simp [not_lt.mpr hbot]

/-- Witness for C2: concrete obstacle (top 100, gap 170, bottom 330 in a
600-high playfield) and a character strictly inside the gap. -/
theorem characterHitsObstacle_gap_property_witness :
    checkTurkeyObstacleCollision ⟨110, 150, 40, 30⟩ ⟨100, 60, 100, 330, false⟩ 600 = false :=
  (characterHitsObstacle_gap_property ⟨110, 150, 40, 30⟩ ⟨100, 60, 100, 330, false⟩ 600 170
    (by norm_num)).1 (by norm_num) (by norm_num) (by norm_num) (by norm_num)

/-- C9 counterexample: the obstacle spawned with `canvasHeight = 600`,
`gapSize = 170`, `gapStart = 100` does have `topHeight = 100` and
`bottomHeight = 330`, but a horizontally overlapping character rectangle at
`y = 50` with `height = 30` lies inside the top barrier (span 50..80 within
0..100) and DOES collide, contrary to the claim. -/
theorem obstacle_scenario_counterexample :
    (mkObstacle 100 0 100 170 600).topHeight = 100 ∧
    (mkObstacle 100 0 100 170 600).bottomHeight = 330 ∧
    checkTurkeyObstacleCollision ⟨110, 50, 40, 30⟩ (mkObstacle 100 0 100 170 600) 600 = true ∧
    checkTurkeyObstacleCollision ⟨110, 0, 40, 30⟩ (mkObstacle 100 0 100 170 600) 600 = true := by
  refine ⟨by norm_num [mkObstacle], by norm_num [mkObstacle], ?_, ?_⟩ <;>
    norm_num [mkObstacle, checkTurkeyObstacleCollision, rectsIntersect, createRect]

/-- C9 amended: the constructor values are as claimed, but wherever the
character at `y = 0, height = 30` collides with that obstacle, the character
at `y = 50, height = 30` collides as well (both are inside the top barrier);
a character actually inside the gap (`y = 150, height = 30`) does not
collide. -/
theorem obstacle_scenario_amended (tx tw : ℚ)
    (h0 : checkTurkeyObstacleCollision ⟨tx, 0, tw, 30⟩ (mkObstacle 100 0 100 170 600) 600 = true) :
    (mkObstacle 100 0 100 170 600).topHeight = 100 ∧
    (mkObstacle 100 0 100 170 600).bottomHeight = 330 ∧
    checkTurkeyObstacleCollision ⟨tx, 50, tw, 30⟩ (mkObstacle 100 0 100 170 600) 600 = true ∧
    checkTurkeyObstacleCollision ⟨110, 150, 40, 30⟩ (mkObstacle 100 0 100 170 600) 600 = false := by
  refine ⟨by norm_num [mkObstacle], by norm_num [mkObstacle], ?_, ?_⟩
  · rcases (checkTurkeyObstacleCollision_eq_true_iff _ _ _).mp h0 with
      ⟨_, hint⟩ | ⟨_, hint⟩
    · obtain ⟨hx1, hx2, _, _⟩ := (rectsIntersect_iff _ _).mp hint
      rw [checkTurkeyObstacleCollision_eq_true_iff]
      left
      refine ⟨by norm_num [mkObstacle], (rectsIntersect_iff _ _).mpr ?_⟩
      norm_num [mkObstacle] at hx1 hx2 ⊢
      exact ⟨hx1, hx2⟩
    · obtain ⟨_, _, _, hy⟩ := (rectsIntersect_iff _ _).mp hint
      norm_num [mkObstacle] at hy
  · norm_num [mkObstacle, checkTurkeyObstacleCollision, rectsIntersect, createRect]

/-- Witness for the amended C9 at a concrete horizontally overlapping
character placement. -/
theorem obstacle_scenario_amended_witness :
    checkTurkeyObstacleCollision ⟨110, 50, 40, 30⟩ (mkObstacle 100 0 100 170 600) 600 = true :=
  (obstacle_scenario_amended 110 40
    (by norm_num [mkObstacle, checkTurkeyObstacleCollision, rectsIntersect, createRect])).2.2.1

/-- Difficulty settings record mirroring `DifficultySettings` from
`constants/difficulty.ts`. -/
structure DifficultySettings where
  level : ℕ
  obstacleSpeed : ℚ
  spawnInterval : ℕ
  gravity : ℚ
  flapStrength : ℚ
  obstacleGap : ℕ
  description : String
deriving DecidableEq

/-- Embedding of the `DIFFICULTY_LEVELS` table from `constants/difficulty.ts`
(an object keyed by the integers 1 through 5). -/
def DIFFICULTY_LEVELS : ℕ → Option DifficultySettings
  | 1 => some { level := 1, obstacleSpeed := 2.6, spawnInterval := 1350,
                gravity := 0.38, flapStrength := -6.2, obstacleGap := 170,
                description := "Beginner Mode - Get your wings ready!" }
  | 2 => some { level := 2, obstacleSpeed := 2.8, spawnInterval := 1400,
                gravity := 0.45, flapStrength := -8.5, obstacleGap := 170,
                description := "Apprentice Turkey - Flying higher!" }
  | 3 => some { level := 3, obstacleSpeed := 3.4, spawnInterval := 1200,
                gravity := 0.5, flapStrength := -8, obstacleGap := 160,
                description := "Expert Flyer - Mastering the skies!" }
  | 4 => some { level := 4, obstacleSpeed := 4.0, spawnInterval := 1000,
                gravity := 0.55, flapStrength := -7.5, obstacleGap := 150,
                description := "Turkey Ace - Challenging the winds!" }
  | 5 => some { level := 5, obstacleSpeed := 4.8, spawnInterval := 900,
                gravity := 0.6, flapStrength := -7, obstacleGap := 140,
                description := "Gobble Master - Ultimate turkey champion!" }
  | _ => none

/-- Obstacle speed at a level of the difficulty table (0 when absent). -/
def speedAt (level : ℕ) : ℚ :=
  match DIFFICULTY_LEVELS level with
  | some s => s.obstacleSpeed
  | none => 0

/-- Obstacle spawn interval at a level of the difficulty table (0 when absent). -/
def spawnIntervalAt (level : ℕ) : ℕ :=
  match DIFFICULTY_LEVELS level with
  | some s => s.spawnInterval
  | none => 0

/-- Obstacle gap size at a level of the difficulty table (0 when absent). -/
def gapAt (level : ℕ) : ℕ :=
  match DIFFICULTY_LEVELS level with
  | some s => s.obstacleGap
  | none => 0

/-- C3 counterexample: the spawn interval is NOT non-increasing in the
level — it grows from 1350 ms at level 1 to 1400 ms at level 2. -/
theorem difficulty_spawnInterval_not_nonincreasing :
    ¬ (spawnIntervalAt 2 ≤ spawnIntervalAt 1) := by decide

/-- C3 amended: across levels 1 through 5, obstacle speed is non-decreasing
and gap size is non-increasing; the spawn interval is non-increasing from
level 2 onward but increases from 1350 ms (level 1) to 1400 ms (level 2). -/
theorem difficulty_monotonicity_amended :
    speedAt 1 ≤ speedAt 2 ∧ speedAt 2 ≤ speedAt 3 ∧
    speedAt 3 ≤ speedAt 4 ∧ speedAt 4 ≤ speedAt 5 ∧
    gapAt 2 ≤ gapAt 1 ∧ gapAt 3 ≤ gapAt 2 ∧
    gapAt 4 ≤ gapAt 3 ∧ gapAt 5 ≤ gapAt 4 ∧
    spawnIntervalAt 3 ≤ spawnIntervalAt 2 ∧
    spawnIntervalAt 4 ≤ spawnIntervalAt 3 ∧
    spawnIntervalAt 5 ≤ spawnIntervalAt 4 ∧
    spawnIntervalAt 1 < spawnIntervalAt 2 := by
  refine ⟨?_, ?_, ?_, ?_, ?_, ?_, ?_, ?_, ?_, ?_, ?_, ?_⟩ <;>
    norm_num [speedAt, gapAt, spawnIntervalAt, DIFFICULTY_LEVELS]

/-- Game phase as in `stores/useGame` (`ready`, `playing`, `ended`). -/
inductive GamePhase where
  | ready
  | playing
  | ended
deriving DecidableEq

/-- Power-up kinds from `sprites.ts`. -/
inductive PowerUpType where
  | pumpkin
  | acorn
  | maple_leaf
  | turkey_feather
deriving DecidableEq

/-- Payload stored in the engine's `activePowerUps` map: the effect magnitude
and the absolute expiry timestamp. -/
structure ActiveEffect where
  value : ℚ
  endTime : ℤ
deriving DecidableEq

/-- Turkey sprite state from `sprites.ts` (`width = 40`, `height = 30`,
velocity and flap-animation counter start at 0). -/
structure Turkey where
  x : ℚ
  y : ℚ
  width : ℚ
  height : ℚ
  velocity : ℚ
  flapFrame : ℕ
deriving DecidableEq

/-- Embedding of the `Turkey` constructor. -/
def mkTurkey (x y : ℚ) : Turkey :=
  { x := x, y := y, width := 40, height := 30, velocity := 0, flapFrame := 0 }

/-- Decorative leaf particle (only its presence in the engine's list matters
for the verified properties). -/
structure LeafParticle where
  x : ℚ
  y : ℚ
deriving DecidableEq

/-- Collectible power-up entity (position, kind and collected flag). -/
structure PowerUpEntity where
  x : ℚ
  y : ℚ
  kind : PowerUpType
  collected : Bool
deriving DecidableEq

/-- Engine-owned state: the fields of the `GameEngine` class of
`gameEngine.ts` that the verified update/score/reset logic reads or writes,
plus event logs recording the `onLevelUp` / `onScoreIncrease` / `onGameOver`
callback invocations. -/
structure EngineState where
  canvasWidth : ℚ
  canvasHeight : ℚ
  turkey : Turkey
  obstacles : List Obstacle
  leafParticles : List LeafParticle
  powerUps : List PowerUpEntity
  activePowerUps : PowerUpType → Option ActiveEffect
  gameState : GamePhase
  lastObstacleTime : ℤ
  lastLeafSpawnTime : ℤ
  lastPowerUpSpawnTime : ℤ
  startTime : ℤ
  shieldActive : Bool
  invulnerabilityEndTime : ℤ
  currentLevel : ℕ
  currentScore : ℕ
  levelUpEvents : List ℕ
  scoreEvents : ℕ
  gameOverFired : Bool

/-- Embedding of `endGame`: set the phase to `ended` and fire `onGameOver`. -/
def endGame (st : EngineState) : EngineState :=
  { st with gameState := GamePhase.ended, gameOverFired := true }

/-- Embedding of `incrementScore` from `gameEngine.ts`: bump the score, then
`newLevel = min(MAX_LEVEL, floor(score / POINTS_PER_LEVEL) + 1)` with
`MAX_LEVEL = 5` and `POINTS_PER_LEVEL = 10`; on a level increase store it and
fire `onLevelUp`; always fire `onScoreIncrease`. -/
def incrementScore (st : EngineState) : EngineState :=
  let score := st.currentScore + 1
  let newLevel := min 5 (score / 10 + 1)
  if st.currentLevel < newLevel then
    { st with currentScore := score, currentLevel := newLevel,
              levelUpEvents := st.levelUpEvents ++ [newLevel],
              scoreEvents := st.scoreEvents + 1 }
  else
    { st with currentScore := score, scoreEvents := st.scoreEvents + 1 }

@[simp] lemma incrementScore_currentScore (st : EngineState) :
    (incrementScore st).currentScore = st.currentScore + 1 := by
  unfold incrementScore; dsimp only; split <;> rfl

@[simp] lemma incrementScore_shieldActive (st : EngineState) :
    (incrementScore st).shieldActive = st.shieldActive := by
  unfold incrementScore; dsimp only; split <;> rfl

@[simp] lemma incrementScore_activePowerUps (st : EngineState) :
    (incrementScore st).activePowerUps = st.activePowerUps := by
  unfold incrementScore; dsimp only; split <;> rfl

@[simp] lemma incrementScore_invulnerabilityEndTime (st : EngineState) :
    (incrementScore st).invulnerabilityEndTime = st.invulnerabilityEndTime := by
  unfold incrementScore; dsimp only; split <;> rfl

@[simp] lemma incrementScore_gameState (st : EngineState) :
    (incrementScore st).gameState = st.gameState := by
  unfold incrementScore; dsimp only; split <;> rfl

@[simp] lemma incrementScore_turkey (st : EngineState) :
    (incrementScore st).turkey = st.turkey := by
  unfold incrementScore; dsimp only; split <;> rfl

@[simp] lemma incrementScore_canvasHeight (st : EngineState) :
    (incrementScore st).canvasHeight = st.canvasHeight := by
  unfold incrementScore; dsimp only; split <;> rfl

@[simp] lemma incrementScore_gameOverFired (st : EngineState) :
    (incrementScore st).gameOverFired = st.gameOverFired := by
  unfold incrementScore; dsimp only; split <;> rfl

/-- Scoring award of the obstacle loop of `update`: one `incrementScore`, or
two when an acorn (double points) effect is present and unexpired. -/
def awardPoints (now : ℤ) (st : EngineState) : EngineState :=
  match st.activePowerUps PowerUpType.acorn with
  | some eff => if now < eff.endTime then incrementScore (incrementScore st)
                else incrementScore st
  | none => incrementScore st

/-- Scoring step of the obstacle loop of `update` (`gameEngine.ts`): when the
obstacle is unscored and its trailing edge has passed the turkey's leading
edge, mark it scored and award points. -/
def scoreStep (now : ℤ) (st : EngineState) (o1 : Obstacle) :
    EngineState × Obstacle :=
  if o1.scored = false ∧ o1.x + o1.width < st.turkey.x then
    (awardPoints now st, { o1 with scored := true })
  else
    (st, o1)

/-- Rectangle of the turkey, as passed to the collision module. -/
def turkeyRect (t : Turkey) : Rect :=
  { x := t.x, y := t.y, width := t.width, height := t.height }

/-- Collision-resolution step of the obstacle loop of `update`
(`gameEngine.ts` lines 229-253): on a detected collision, a live shield is
consumed (cleared, removed from the effects map, 500 ms invulnerability from
now); otherwise active pumpkin invincibility or the post-shield grace window
skips damage; otherwise the game ends. -/
def collisionStep (now : ℤ) (st : EngineState) (o : Obstacle) : EngineState :=
  if checkTurkeyObstacleCollision (turkeyRect st.turkey) o st.canvasHeight then
    if st.shieldActive then
      { st with shieldActive := false,
                invulnerabilityEndTime := now + 500,
                activePowerUps := fun t =>
                  if t = PowerUpType.turkey_feather then none
                  else st.activePowerUps t }
    else if ((match st.activePowerUps PowerUpType.pumpkin with
              | some eff => decide (now < eff.endTime)
              | none => false) ||
             decide (now < st.invulnerabilityEndTime)) then
      st
    else
      endGame st
  else
    st

/-- Processing of one obstacle in the per-frame obstacle loop of `update`:
advance it by the current speed, drop it when fully off screen, otherwise run
the scoring step and then the collision step. -/
def obstacleStep (now : ℤ) (speed : ℚ) (st : EngineState) (o : Obstacle) :
    EngineState × Option Obstacle :=
  let o1 := { o with x := o.x - speed }
  if o1.x + o1.width < 0 then
    (st, none)
  else
    let p := scoreStep now st o1
    (collisionStep now p.1 p.2, some p.2)

/-- Per-frame obstacle loop of `update` (`gameEngine.ts` lines 200-254): the
source iterates the array from the last index down to 0 with in-place
removal, and `endGame` aborts the remaining iterations via `return`; here the
later-indexed tail is processed first and the `ended` phase short-circuits
the rest. -/
def obstacleLoop (now : ℤ) (speed : ℚ) :
    EngineState → List Obstacle → EngineState × List Obstacle
  | st, [] => (st, [])
  | st, o :: rest =>
      match obstacleLoop now speed st rest with
      | (st1, rest1) =>
        if st1.gameState = GamePhase.ended then
          (st1, o :: rest1)
        else
          match obstacleStep now speed st1 o with
          | (st2, some o2) => (st2, o2 :: rest1)
          | (st2, none) => (st2, rest1)

/-- Embedding of `reset` from `gameEngine.ts` (lines 113-148): clear the
entity lists and the active-effects map, clear the shield and
invulnerability window, zero score and level (notifying `onLevelUp(1)`),
reseed every spawn timestamp to the current time, and reinitialize the
turkey at `(100, canvasHeight / 2)`. -/
def reset (st : EngineState) (now : ℤ) : EngineState :=
  { st with obstacles := []
            leafParticles := []
            powerUps := []
            activePowerUps := fun _ => none
            shieldActive := false
            invulnerabilityEndTime := 0
            currentLevel := 1
            currentScore := 0
            levelUpEvents := st.levelUpEvents ++ [1]
            lastObstacleTime := now
            lastLeafSpawnTime := now
            lastPowerUpSpawnTime := now
            startTime := now
            turkey := mkTurkey 100 (st.canvasHeight / 2) }

/-- Embedding of `setGameState` from `gameEngine.ts`: store the phase; a
transition to `ready` additionally performs the full `reset` (and restarts
the loop, which touches no modelled field). -/
def setGameState (st : EngineState) (state : GamePhase) (now : ℤ) : EngineState :=
  let st1 := { st with gameState := state }
  if state = GamePhase.ready then reset st1 now else st1

/-- C8: after `setGameState('ready')` from any prior state, the obstacle,
power-up and active-effects collections are empty, score is 0, level is 1,
all per-category last-spawn timestamps (and the animation start time) equal
the reset time, and the turkey is reinitialized at `(100, canvasHeight / 2)`
with the shield cleared and the invulnerability window zeroed. -/
theorem setGameState_ready_resets (st : EngineState) (now : ℤ) :
    (setGameState st GamePhase.ready now).obstacles = [] ∧
    (setGameState st GamePhase.ready now).powerUps = [] ∧
    (setGameState st GamePhase.ready now).activePowerUps = (fun _ => none) ∧
    (setGameState st GamePhase.ready now).currentScore = 0 ∧
    (setGameState st GamePhase.ready now).currentLevel = 1 ∧
    (setGameState st GamePhase.ready now).lastObstacleTime = now ∧
    (setGameState st GamePhase.ready now).lastLeafSpawnTime = now ∧
    (setGameState st GamePhase.ready now).lastPowerUpSpawnTime = now ∧
    (setGameState st GamePhase.ready now).startTime = now ∧
    (setGameState st GamePhase.ready now).turkey = mkTurkey 100 (st.canvasHeight / 2) ∧
    (setGameState st GamePhase.ready now).shieldActive = false ∧
    (setGameState st GamePhase.ready now).invulnerabilityEndTime = 0 ∧
    (setGameState st GamePhase.ready now).gameState = GamePhase.ready := by
  refine ⟨rfl, rfl, rfl, rfl, rfl, rfl, rfl, rfl, rfl, rfl, rfl, rfl, rfl⟩

/-- C10: the reset performed on the transition to `ready` also empties the
decorative leaf-particle list, alongside the obstacle/power-up/effect
collections. -/
theorem setGameState_ready_clears_leafParticles (st : EngineState) (now : ℤ) :
    (setGameState st GamePhase.ready now).leafParticles = [] := rfl

lemma awardPoints_preserves (now : ℤ) (st : EngineState) :
    (awardPoints now st).shieldActive = st.shieldActive ∧
    (awardPoints now st).activePowerUps = st.activePowerUps ∧
    (awardPoints now st).invulnerabilityEndTime = st.invulnerabilityEndTime ∧
    (awardPoints now st).gameState = st.gameState ∧
    (awardPoints now st).turkey = st.turkey ∧
    (awardPoints now st).canvasHeight = st.canvasHeight ∧
    (awardPoints now st).gameOverFired = st.gameOverFired := by
  unfold awardPoints
  rcases st.activePowerUps PowerUpType.acorn with _ | eff <;> simp
  split <;> simp

lemma scoreStep_fst_preserves (now : ℤ) (st : EngineState) (o1 : Obstacle) :
    (scoreStep now st o1).1.shieldActive = st.shieldActive ∧
    (scoreStep now st o1).1.activePowerUps = st.activePowerUps ∧
    (scoreStep now st o1).1.invulnerabilityEndTime = st.invulnerabilityEndTime ∧
    (scoreStep now st o1).1.gameState = st.gameState ∧
    (scoreStep now st o1).1.turkey = st.turkey ∧
    (scoreStep now st o1).1.canvasHeight = st.canvasHeight ∧
    (scoreStep now st o1).1.gameOverFired = st.gameOverFired := by
  unfold scoreStep
  split
  · exact awardPoints_preserves now st
  · exact ⟨rfl, rfl, rfl, rfl, rfl, rfl, rfl⟩

lemma scoreStep_snd_shape (now : ℤ) (st : EngineState) (o1 : Obstacle) :
    (scoreStep now st o1).2 = o1 ∨ (scoreStep now st o1).2 = { o1 with scored := true } := by
  unfold scoreStep
  split
  · right; rfl
  · left; rfl

lemma checkTurkeyObstacleCollision_scored (t : Rect) (o : Obstacle) (b : Bool)
    (H : ℚ) :
    checkTurkeyObstacleCollision t { o with scored := b } H =
      checkTurkeyObstacleCollision t o H := rfl

lemma obstacleLoop_nil (now : ℤ) (speed : ℚ) (st : EngineState) :
    obstacleLoop now speed st [] = (st, []) := rfl

lemma obstacleLoop_cons (now : ℤ) (speed : ℚ) (st : EngineState)
    (o : Obstacle) (rest : List Obstacle) :
    obstacleLoop now speed st (o :: rest) =
      match obstacleLoop now speed st rest with
      | (st1, rest1) =>
        if st1.gameState = GamePhase.ended then
          (st1, o :: rest1)
        else
          match obstacleStep now speed st1 o with
          | (st2, some o2) => (st2, o2 :: rest1)
          | (st2, none) => (st2, rest1) := rfl

lemma collisionStep_currentScore (now : ℤ) (st : EngineState) (o : Obstacle) :
    (collisionStep now st o).currentScore = st.currentScore := by
  unfold collisionStep endGame
  split
  · split
    · rfl
    · split <;> rfl
  · rfl

/-- C5: when an obstacle collision is detected during the frame update, a
live instant shield absorbs it — the game stays `playing`, the shield flag
is cleared, the `turkey_feather` entry leaves the effects map, a 500 ms
invulnerability window starting at the collision time is granted, and the
remaining obstacles of the frame are still processed; a collision inside the
grace window also does not end the game; a collision after the grace window
with no protective effect ends the game. -/
theorem shield_collision_property (now : ℤ) (speed : ℚ) (st : EngineState)
    (o oNext : Obstacle)
    (hplay : st.gameState = GamePhase.playing)
    (hon : ¬ (o.x - speed + o.width < 0))
    (hcol : checkTurkeyObstacleCollision (turkeyRect st.turkey)
      { o with x := o.x - speed } st.canvasHeight = true) :
    (st.shieldActive = true →
      (obstacleStep now speed st o).1.gameState = GamePhase.playing ∧
      (obstacleStep now speed st o).1.shieldActive = false ∧
      (obstacleStep now speed st o).1.activePowerUps PowerUpType.turkey_feather = none ∧
      (obstacleStep now speed st o).1.invulnerabilityEndTime = now + 500 ∧
      (obstacleLoop now speed st [oNext, o]).1 =
        (obstacleStep now speed (obstacleStep now speed st o).1 oNext).1) ∧
    (st.shieldActive = false → now < st.invulnerabilityEndTime →
      (obstacleStep now speed st o).1.gameState = GamePhase.playing) ∧
    (st.shieldActive = false → st.invulnerabilityEndTime ≤ now →
      st.activePowerUps PowerUpType.pumpkin = none →
      (obstacleStep now speed st o).1.gameState = GamePhase.ended ∧
      (obstacleStep now speed st o).1.gameOverFired = true) := by
  have hP := scoreStep_fst_preserves now st { o with x := o.x - speed }
  have hr : obstacleStep now speed st o =
      (collisionStep now (scoreStep now st { o with x := o.x - speed }).1
        (scoreStep now st { o with x := o.x - speed }).2,
       some (scoreStep now st { o with x := o.x - speed }).2) := by
    unfold obstacleStep
    dsimp only
    split
    · next h => exact absurd h hon
    · rfl
  have hcheck : checkTurkeyObstacleCollision
      (turkeyRect (scoreStep now st { o with x := o.x - speed }).1.turkey)
      (scoreStep now st { o with x := o.x - speed }).2
      (scoreStep now st { o with x := o.x - speed }).1.canvasHeight = true := by
    rw [hP.2.2.2.2.1, hP.2.2.2.2.2.1]
    rcases scoreStep_snd_shape now st { o with x := o.x - speed } with h | h
    · rw [h]; exact hcol
    · rw [h, checkTurkeyObstacleCollision_scored]; exact hcol
  refine ⟨?_, ?_, ?_⟩
  · intro hshield
    have hshield1 : (scoreStep now st { o with x := o.x - speed }).1.shieldActive = true := by
      rw [hP.1, hshield]
    have hc1 : collisionStep now (scoreStep now st { o with x := o.x - speed }).1
        (scoreStep now st { o with x := o.x - speed }).2 =
        { (scoreStep now st { o with x := o.x - speed }).1 with
            shieldActive := false,
            invulnerabilityEndTime := now + 500,
            activePowerUps := fun t =>
              if t = PowerUpType.turkey_feather then none
              else (scoreStep now st { o with x := o.x - speed }).1.activePowerUps t } := by
      unfold collisionStep
      rw [if_pos hcheck, if_pos hshield1]
    refine ⟨?_, ?_, ?_, ?_, ?_⟩
    · rw [hr]; dsimp only; rw [hc1]; dsimp only; rw [hP.2.2.2.1]; exact hplay
    · rw [hr]; dsimp only; rw [hc1]
    · rw [hr]; dsimp only; rw [hc1]; dsimp only; rw [if_pos rfl]
    · rw [hr]; dsimp only; rw [hc1]
    · have hstep_play : (obstacleStep now speed st o).1.gameState = GamePhase.playing := by
        rw [hr]; dsimp only; rw [hc1]; dsimp only; rw [hP.2.2.2.1]; exact hplay
      have hne1 : ¬ (st.gameState = GamePhase.ended) := by simp [hplay]
      have hne2 : ¬ ((obstacleStep now speed st o).1.gameState = GamePhase.ended) := by
        simp [hstep_play]
      have hinner : obstacleLoop now speed st [o] =
          ((obstacleStep now speed st o).1,
           [(scoreStep now st { o with x := o.x - speed }).2]) := by
        rw [obstacleLoop_cons, obstacleLoop_nil]
        dsimp only
        rw [if_neg hne1, hr]
      rw [obstacleLoop_cons, hinner]
      dsimp only
      rw [if_neg hne2]
      rcases hnext : obstacleStep now speed (obstacleStep now speed st o).1 oNext with ⟨st3, onext'⟩
      rcases onext' with _ | o3 <;> rfl
  · intro hshield hgrace
    have hshield1 : (scoreStep now st { o with x := o.x - speed }).1.shieldActive = false := by
      rw [hP.1, hshield]
    have hinv : (decide (now < (scoreStep now st { o with x := o.x - speed }).1.invulnerabilityEndTime)) = true := by
      rw [hP.2.2.1]
      exact decide_eq_true hgrace
    have hc1 : collisionStep now (scoreStep now st { o with x := o.x - speed }).1
        (scoreStep now st { o with x := o.x - speed }).2 =
        (scoreStep now st { o with x := o.x - speed }).1 := by
      unfold collisionStep
      rw [if_pos hcheck]
      rw [if_neg (by rw [hshield1]; exact Bool.false_ne_true)]
      rw [if_pos (by rw [hinv, Bool.or_true])]
    rw [hr]; dsimp only; rw [hc1, hP.2.2.2.1]; exact hplay
  · intro hshield hgrace hpumpkin
    have hshield1 : (scoreStep now st { o with x := o.x - speed }).1.shieldActive = false := by
      rw [hP.1, hshield]
    have hcond : ((match (scoreStep now st { o with x := o.x - speed }).1.activePowerUps
          PowerUpType.pumpkin with
        | some eff => decide (now < eff.endTime)
        | none => false) ||
        decide (now < (scoreStep now st { o with x := o.x - speed }).1.invulnerabilityEndTime)) = false := by
      rw [hP.2.1, hP.2.2.1, hpumpkin]
      simp [not_lt.mpr hgrace]
    have hc1 : collisionStep now (scoreStep now st { o with x := o.x - speed }).1
        (scoreStep now st { o with x := o.x - speed }).2 =
        endGame (scoreStep now st { o with x := o.x - speed }).1 := by
      unfold collisionStep
      rw [if_pos hcheck]
      rw [if_neg (by rw [hshield1]; exact Bool.false_ne_true)]
      rw [if_neg (by rw [hcond]; exact Bool.false_ne_true)]
    constructor
    · rw [hr]; dsimp only; rw [hc1]; rfl
    · rw [hr]; dsimp only; rw [hc1]; rfl

/-- Effects map holding only an instant shield entry (as stored by
`collectPowerUp` for `turkey_feather`, expiry `Number.MAX_SAFE_INTEGER`). -/
def shieldDemoEffects : PowerUpType → Option ActiveEffect :=
  fun t => if t = PowerUpType.turkey_feather then some ⟨1, 9007199254740991⟩ else none

/-- Concrete playing state with a live shield, used to witness C5. -/
def shieldDemoState : EngineState :=
  { canvasWidth := 800, canvasHeight := 600, turkey := mkTurkey 100 300,
    obstacles := [], leafParticles := [], powerUps := [],
    activePowerUps := shieldDemoEffects, gameState := GamePhase.playing,
    lastObstacleTime := 0, lastLeafSpawnTime := 0, lastPowerUpSpawnTime := 0,
    startTime := 0, shieldActive := true, invulnerabilityEndTime := 0,
    currentLevel := 1, currentScore := 0, levelUpEvents := [], scoreEvents := 0,
    gameOverFired := false }

/-- Obstacle whose top barrier (height 310) covers the demo turkey. -/
def shieldDemoObstacle : Obstacle :=
  { x := 100, width := 60, topHeight := 310, bottomHeight := 120, scored := false }

/-- Witness for C5: the demo collision with a live shield clears the shield
without ending the game. -/
theorem shield_collision_property_witness :
    (obstacleStep 1000 0 shieldDemoState shieldDemoObstacle).1.shieldActive = false ∧
    (obstacleStep 1000 0 shieldDemoState shieldDemoObstacle).1.gameState = GamePhase.playing :=
  have h := (shield_collision_property 1000 0 shieldDemoState shieldDemoObstacle
    shieldDemoObstacle rfl
    (by norm_num [shieldDemoObstacle])
    (by norm_num [shieldDemoState, shieldDemoObstacle, mkTurkey, turkeyRect,
          checkTurkeyObstacleCollision, rectsIntersect, createRect])).1 rfl
  ⟨h.2.1, h.1⟩

lemma obstacleStep_not_offscreen (now : ℤ) (speed : ℚ) (st : EngineState)
    (o : Obstacle) (hon : ¬ (o.x - speed + o.width < 0)) :
    obstacleStep now speed st o =
      (collisionStep now (scoreStep now st { o with x := o.x - speed }).1
        (scoreStep now st { o with x := o.x - speed }).2,
       some (scoreStep now st { o with x := o.x - speed }).2) := by
  unfold obstacleStep
  dsimp only
  split
  · next h => exact absurd h hon
  · rfl

/-- C6: when an unscored obstacle's trailing edge passes the character's
leading edge during the frame update, it is marked scored and the score
rises by exactly 2 under an active unexpired acorn (double points) effect
and by exactly 1 otherwise; an already-scored obstacle awards nothing. -/
theorem obstacle_scoring_property (now : ℤ) (speed : ℚ) (st : EngineState)
    (o : Obstacle) (eff : ActiveEffect)
    (hon : ¬ (o.x - speed + o.width < 0))
    (hpass : o.x - speed + o.width < st.turkey.x) :
    (o.scored = false → st.activePowerUps PowerUpType.acorn = some eff →
      now < eff.endTime →
      (obstacleStep now speed st o).1.currentScore = st.currentScore + 2 ∧
      (obstacleStep now speed st o).2 = some { o with x := o.x - speed, scored := true }) ∧
    (o.scored = false → st.activePowerUps PowerUpType.acorn = none →
      (obstacleStep now speed st o).1.currentScore = st.currentScore + 1 ∧
      (obstacleStep now speed st o).2 = some { o with x := o.x - speed, scored := true }) ∧
    (o.scored = false → st.activePowerUps PowerUpType.acorn = some eff →
      eff.endTime ≤ now →
      (obstacleStep now speed st o).1.currentScore = st.currentScore + 1 ∧
      (obstacleStep now speed st o).2 = some { o with x := o.x - speed, scored := true }) ∧
    (o.scored = true →
      (obstacleStep now speed st o).1.currentScore = st.currentScore ∧
      (obstacleStep now speed st o).2 = some { o with x := o.x - speed }) := by
  have hr := obstacleStep_not_offscreen now speed st o hon
  refine ⟨?_, ?_, ?_, ?_⟩
  · intro hns hacorn hlt
    have hscore : scoreStep now st { o with x := o.x - speed } =
        (awardPoints now st, { o with x := o.x - speed, scored := true }) := by
      unfold scoreStep
      rw [if_pos ⟨hns, hpass⟩]
    have haw : awardPoints now st = incrementScore (incrementScore st) := by
      unfold awardPoints
      rw [hacorn]
      dsimp only
      rw [if_pos hlt]
    constructor
    · rw [hr]; dsimp only; rw [hscore]; dsimp only
      rw [collisionStep_currentScore, haw, incrementScore_currentScore,
        incrementScore_currentScore]
    · rw [hr]; dsimp only; rw [hscore]
  · intro hns hacorn
    have hscore : scoreStep now st { o with x := o.x - speed } =
        (awardPoints now st, { o with x := o.x - speed, scored := true }) := by
      unfold scoreStep
      rw [if_pos ⟨hns, hpass⟩]
    have haw : awardPoints now st = incrementScore st := by
      unfold awardPoints
      rw [hacorn]
    constructor
    · rw [hr]; dsimp only; rw [hscore]; dsimp only
      rw [collisionStep_currentScore, haw, incrementScore_currentScore]
    · rw [hr]; dsimp only; rw [hscore]
  · intro hns hacorn hexp
    have hscore : scoreStep now st { o with x := o.x - speed } =
        (awardPoints now st, { o with x := o.x - speed, scored := true }) := by
      unfold scoreStep
      rw [if_pos ⟨hns, hpass⟩]
    have haw : awardPoints now st = incrementScore st := by
      unfold awardPoints
      rw [hacorn]
      dsimp only
      rw [if_neg (not_lt.mpr hexp)]
    constructor
    · rw [hr]; dsimp only; rw [hscore]; dsimp only
      rw [collisionStep_currentScore, haw, incrementScore_currentScore]
    · rw [hr]; dsimp only; rw [hscore]
  · intro hs
    have hscore : scoreStep now st { o with x := o.x - speed } =
        (st, { o with x := o.x - speed }) := by
      unfold scoreStep
      rw [if_neg (by rintro ⟨h1, _⟩; rw [show ({ o with x := o.x - speed } : Obstacle).scored = o.scored from rfl, hs] at h1; exact Bool.true_eq_false ▸ Bool.noConfusion h1)]
    constructor
    · rw [hr]; dsimp only; rw [hscore]; dsimp only
      rw [collisionStep_currentScore]
    · rw [hr]; dsimp only; rw [hscore]

/-- Concrete playing state with an unexpired double-points effect, used to
witness C6. -/
def scoringDemoState : EngineState :=
  { canvasWidth := 800, canvasHeight := 600, turkey := mkTurkey 100 300,
    obstacles := [], leafParticles := [], powerUps := [],
    activePowerUps := fun t => if t = PowerUpType.acorn then some ⟨2, 5000⟩ else none,
    gameState := GamePhase.playing,
    lastObstacleTime := 0, lastLeafSpawnTime := 0, lastPowerUpSpawnTime := 0,
    startTime := 0, shieldActive := false, invulnerabilityEndTime := 0,
    currentLevel := 1, currentScore := 0, levelUpEvents := [], scoreEvents := 0,
    gameOverFired := false }

/-- Witness for C6: the demo pass with an unexpired acorn awards exactly 2. -/
theorem obstacle_scoring_property_witness :
    (obstacleStep 1000 20 scoringDemoState
      { x := 50, width := 60, topHeight := 100, bottomHeight := 330, scored := false }).1.currentScore =
      scoringDemoState.currentScore + 2 :=
  ((obstacle_scoring_property 1000 20 scoringDemoState
    { x := 50, width := 60, topHeight := 100, bottomHeight := 330, scored := false }
    ⟨2, 5000⟩
    (by norm_num)
    (by norm_num [scoringDemoState, mkTurkey])).1 rfl rfl (by norm_num)).1

/-- Concrete playing state at score 9, level 1, used for the C7 level-up
boundary scenario. -/
def levelDemoState : EngineState :=
  { canvasWidth := 800, canvasHeight := 600, turkey := mkTurkey 100 300,
    obstacles := [], leafParticles := [], powerUps := [],
    activePowerUps := fun _ => none, gameState := GamePhase.playing,
    lastObstacleTime := 0, lastLeafSpawnTime := 0, lastPowerUpSpawnTime := 0,
    startTime := 0, shieldActive := false, invulnerabilityEndTime := 0,
    currentLevel := 1, currentScore := 9, levelUpEvents := [], scoreEvents := 0,
    gameOverFired := false }

/-- C7: each score increment raises the score by exactly 1 and never lowers
the level; it preserves the invariant
`level = clamp(floor(score / 10) + 1, 1, 5)`; a level increase fires exactly
one level-up notification (with the new level) and no notification fires
otherwise; from score 9 one pass notifies level 2 once and the nine
following passes (scores 11..19) notify nothing further. -/
theorem score_level_progression (st : EngineState) :
    (incrementScore st).currentScore = st.currentScore + 1 ∧
    st.currentLevel ≤ (incrementScore st).currentLevel ∧
    (st.currentLevel = max 1 (min 5 (st.currentScore / 10 + 1)) →
      (incrementScore st).currentLevel = max 1 (min 5 ((st.currentScore + 1) / 10 + 1))) ∧
    (st.currentLevel < (incrementScore st).currentLevel →
      (incrementScore st).levelUpEvents =
        st.levelUpEvents ++ [(incrementScore st).currentLevel]) ∧
    ((incrementScore st).currentLevel = st.currentLevel →
      (incrementScore st).levelUpEvents = st.levelUpEvents) ∧
    (incrementScore levelDemoState).currentScore = 10 ∧
    (incrementScore levelDemoState).currentLevel = 2 ∧
    (incrementScore levelDemoState).levelUpEvents = [2] ∧
    (incrementScore^[9] (incrementScore levelDemoState)).currentScore = 19 ∧
    (incrementScore^[9] (incrementScore levelDemoState)).currentLevel = 2 ∧
    (incrementScore^[9] (incrementScore levelDemoState)).levelUpEvents = [2] := by
  by_cases hc : st.currentLevel < min 5 ((st.currentScore + 1) / 10 + 1)
  · refine ⟨incrementScore_currentScore st, ?_, ?_, ?_, ?_, by rfl, by rfl, by rfl,
      by rfl, by rfl, by rfl⟩
    · unfold incrementScore
      dsimp only
      rw [if_pos hc]
      exact le_of_lt hc
    · intro _
      unfold incrementScore
      dsimp only
      rw [if_pos hc]
      dsimp only
      omega
    · intro _
      unfold incrementScore
      dsimp only
      rw [if_pos hc]
    · intro heq
      unfold incrementScore at heq
      dsimp only at heq
      rw [if_pos hc] at heq
      dsimp only at heq
      omega
  · refine ⟨incrementScore_currentScore st, ?_, ?_, ?_, ?_, by rfl, by rfl, by rfl,
      by rfl, by rfl, by rfl⟩
    · unfold incrementScore
      dsimp only
      rw [if_neg hc]
    · intro hlv
      unfold incrementScore
      dsimp only
      rw [if_neg hc]
      dsimp only
      omega
    · intro hlt
      unfold incrementScore at hlt
      dsimp only at hlt
      rw [if_neg hc] at hlt
      dsimp only at hlt
      exact absurd hlt (lt_irrefl _)
    · intro _
      unfold incrementScore
      dsimp only
      rw [if_neg hc]

/-- Witness for C7: the invariant-preservation branch instantiated at the
score-9 demo state. -/
theorem score_level_progression_witness :
    (incrementScore levelDemoState).currentLevel =
      max 1 (min 5 ((levelDemoState.currentScore + 1) / 10 + 1)) :=
  (score_level_progression levelDemoState).2.2.1 (by norm_num [levelDemoState])

/-- Error-tracking state of the `GameEngine` variant with frame-loop error
handling (`maxErrorsPerSecond = 3`, `errorTrackingWindow = 1000` ms,
consecutive-error cap 5, stale-frame cap 5000 ms). -/
structure ErrorState where
  errorLog : List ℤ
  consecutiveErrors : ℕ
  lastSuccessfulFrame : ℤ
  isInErrorState : Bool
  gameState : GamePhase
  gameOverFired : Bool
deriving DecidableEq

/-- Embedding of `cleanErrorLog`: keep only error timestamps newer than
`currentTime - errorTrackingWindow`. -/
def cleanErrorLog (now : ℤ) (s : ErrorState) : ErrorState :=
  { s with errorLog := s.errorLog.filter (fun t => decide (now - 1000 < t)) }

/-- Embedding of `shouldEnterErrorState`: more than 3 errors in the rolling
window, or at least 5 consecutive errors, or more than 5000 ms since the
last successful frame. -/
def shouldEnterErrorState (now : ℤ) (s : ErrorState) : Bool :=
  decide (3 < s.errorLog.length) ||
  decide (5 ≤ s.consecutiveErrors) ||
  decide (5000 < now - s.lastSuccessfulFrame)

/-- Embedding of `enterCriticalErrorState`: set the fault flag (the loop
handle is cancelled) and, when the game was `playing`, run `endGame`. -/
def enterCriticalErrorState (s : ErrorState) : ErrorState :=
  let s1 := { s with isInErrorState := true }
  if s1.gameState = GamePhase.playing then
    { s1 with gameState := GamePhase.ended, gameOverFired := true }
  else s1

/-- Embedding of `onGameLoopError`: record the error timestamp, bump the
consecutive counter, clean the rolling window, and trip the circuit breaker
when a threshold is exceeded. -/
def onGameLoopError (now : ℤ) (s : ErrorState) : ErrorState :=
  let s1 := { s with errorLog := s.errorLog ++ [now],
                     consecutiveErrors := s.consecutiveErrors + 1 }
  let s2 := cleanErrorLog now s1
  if shouldEnterErrorState now s2 then enterCriticalErrorState s2 else s2

/-- Embedding of `onSuccessfulFrame`. -/
def onSuccessfulFrame (now : ℤ) (s : ErrorState) : ErrorState :=
  { s with consecutiveErrors := 0, lastSuccessfulFrame := now }

/-- Outcome of the `try { update(); draw(); }` body of one frame. -/
inductive FrameOutcome where
  | success
  | failure
deriving DecidableEq

/-- What the frame loop schedules after one invocation: nothing, the next
animation frame, or a deferred retry after a fixed delay in milliseconds. -/
inductive LoopAction where
  | stopped
  | scheduleFrame
  | scheduleRetryAfter (delayMs : ℕ)
deriving DecidableEq

/-- Embedding of one invocation of `gameLoop` from the error-handling engine
variant: bail out in the fault state; on success reset the counters and
schedule the next frame; on an exception run `onGameLoopError` and either
stop (fault state reached) or schedule a retry after 16 ms. -/
def gameLoopStep (now : ℤ) (outcome : FrameOutcome) (s : ErrorState) :
    ErrorState × LoopAction :=
  if s.isInErrorState then
    (s, LoopAction.stopped)
  else
    match outcome with
    | FrameOutcome.success => (onSuccessfulFrame now s, LoopAction.scheduleFrame)
    | FrameOutcome.failure =>
        let s1 := onGameLoopError now s
        if s1.isInErrorState then (s1, LoopAction.stopped)
        else (s1, LoopAction.scheduleRetryAfter 16)

lemma enterCriticalErrorState_isInErrorState (s : ErrorState) :
    (enterCriticalErrorState s).isInErrorState = true := by
  unfold enterCriticalErrorState
  dsimp only
  split <;> rfl

/-- C4: once the fault state is set the loop schedules nothing more and the
state is untouched (the stop is permanent); recording an error that pushes a
threshold over the limit — too many errors in the rolling window, too many
consecutive errors, or no successful frame for over 5 seconds — trips the
circuit breaker: the loop stops and a `playing` session is forced to
`ended`; a single error under every threshold keeps the fault flag clear
and schedules a retry after the fixed 16 ms delay. -/
theorem frame_loop_circuit_breaker (now : ℤ) (outcome : FrameOutcome)
    (s : ErrorState) :
    (s.isInErrorState = true → gameLoopStep now outcome s = (s, LoopAction.stopped)) ∧
    (s.isInErrorState = false →
      (3 < ((s.errorLog ++ [now]).filter (fun t => decide (now - 1000 < t))).length ∨
       5 ≤ s.consecutiveErrors + 1 ∨
       5000 < now - s.lastSuccessfulFrame) →
      (gameLoopStep now FrameOutcome.failure s).1.isInErrorState = true ∧
      (gameLoopStep now FrameOutcome.failure s).2 = LoopAction.stopped ∧
      (s.gameState = GamePhase.playing →
        (gameLoopStep now FrameOutcome.failure s).1.gameState = GamePhase.ended ∧
        (gameLoopStep now FrameOutcome.failure s).1.gameOverFired = true)) ∧
    (s.isInErrorState = false →
      ((s.errorLog ++ [now]).filter (fun t => decide (now - 1000 < t))).length ≤ 3 →
      s.consecutiveErrors + 1 < 5 →
      now - s.lastSuccessfulFrame ≤ 5000 →
      (gameLoopStep now FrameOutcome.failure s).1.isInErrorState = false ∧
      (gameLoopStep now FrameOutcome.failure s).2 = LoopAction.scheduleRetryAfter 16) := by
  refine ⟨?_, ?_, ?_⟩
  · intro h
    unfold gameLoopStep
    rw [if_pos h]
  · intro hfalse hthresh
    have hnot : ¬ (s.isInErrorState = true) := by
      rw [hfalse]; exact Bool.false_ne_true
    have hS : shouldEnterErrorState now
        (cleanErrorLog now { s with errorLog := s.errorLog ++ [now],
                                    consecutiveErrors := s.consecutiveErrors + 1 }) = true := by
      unfold shouldEnterErrorState cleanErrorLog
      dsimp only
      simp only [Bool.or_eq_true, decide_eq_true_eq]
      rcases hthresh with h | h | h
      · exact Or.inl (Or.inl h)
      · exact Or.inl (Or.inr h)
      · exact Or.inr h
    have h2 : onGameLoopError now s =
        enterCriticalErrorState
          (cleanErrorLog now { s with errorLog := s.errorLog ++ [now],
                                      consecutiveErrors := s.consecutiveErrors + 1 }) := by
      unfold onGameLoopError
      dsimp only
      rw [if_pos hS]
    have hin : (onGameLoopError now s).isInErrorState = true := by
      rw [h2]
      exact enterCriticalErrorState_isInErrorState _
    have hstep : gameLoopStep now FrameOutcome.failure s =
        (onGameLoopError now s, LoopAction.stopped) := by
      unfold gameLoopStep
      rw [if_neg hnot]
      dsimp only
      rw [if_pos hin]
    refine ⟨by rw [hstep]; exact hin, by rw [hstep], ?_⟩
    intro hplay
    have hgame : (cleanErrorLog now { s with errorLog := s.errorLog ++ [now],
                                             consecutiveErrors := s.consecutiveErrors + 1 }).gameState =
        GamePhase.playing := hplay
    rw [hstep]
    dsimp only
    rw [h2]
    unfold enterCriticalErrorState
    dsimp only
    rw [if_pos hgame]
    exact ⟨rfl, rfl⟩
  · intro hfalse hlen hcons hstale
    have hnot : ¬ (s.isInErrorState = true) := by
      rw [hfalse]; exact Bool.false_ne_true
    have hS : shouldEnterErrorState now
        (cleanErrorLog now { s with errorLog := s.errorLog ++ [now],
                                    consecutiveErrors := s.consecutiveErrors + 1 }) = false := by
      unfold shouldEnterErrorState cleanErrorLog
      dsimp only
      rw [Bool.eq_false_iff]
      intro htrue
      simp only [Bool.or_eq_true, decide_eq_true_eq] at htrue
      rcases htrue with (h | h) | h
      · exact absurd h (not_lt.mpr hlen)
      · omega
      · exact absurd h (not_lt.mpr hstale)
    have h2 : onGameLoopError now s =
        cleanErrorLog now { s with errorLog := s.errorLog ++ [now],
                                   consecutiveErrors := s.consecutiveErrors + 1 } := by
      unfold onGameLoopError
      dsimp only
      rw [if_neg (by rw [hS]; exact Bool.false_ne_true)]
    have hin : (onGameLoopError now s).isInErrorState = false := by
      rw [h2]
      exact hfalse
    have hstep : gameLoopStep now FrameOutcome.failure s =
        (onGameLoopError now s, LoopAction.scheduleRetryAfter 16) := by
      unfold gameLoopStep
      rw [if_neg hnot]
      dsimp only
      rw [if_neg (by rw [hin]; exact Bool.false_ne_true)]
    exact ⟨by rw [hstep]; exact hin, by rw [hstep]⟩

/-- Witness for C4: a healthy state absorbing a single transient error keeps
running and schedules the 16 ms retry. -/
theorem frame_loop_circuit_breaker_witness :
    (gameLoopStep 100 FrameOutcome.failure
      ⟨[], 0, 0, false, GamePhase.playing, false⟩).1.isInErrorState = false ∧
    (gameLoopStep 100 FrameOutcome.failure
      ⟨[], 0, 0, false, GamePhase.playing, false⟩).2 = LoopAction.scheduleRetryAfter 16 :=
  (frame_loop_circuit_breaker 100 FrameOutcome.failure
    ⟨[], 0, 0, false, GamePhase.playing, false⟩).2.2 rfl (by decide) (by decide) (by decide)

end GobblyTurkey
